import Mathlib

/-!
Verification development for the 3D-Manipulator host controller.

The definitions below are a shallow embedding of the Python sources:
byte strings are modelled as lists of naturals (each morally < 256),
Python unbounded ints as Nat or Int, Python floats as exact rationals
for the codec layer and as real numbers for the path follower, and
fallible control flow as Except.  Where a Python construct has no exact
Lean counterpart the deviation is recorded in a comment next to the
definition.
-/

namespace Manipulator

/-! ## Byte-level helpers (struct.pack little-endian) -/

/-- Little-endian byte list of a natural number, in exactly the given
number of bytes (the value is reduced modulo 256 for each byte, as
struct.pack does for in-range values). -/
def natLEBytes : Nat → Nat → List Nat
  | 0, _ => []
  | s + 1, n => n % 256 :: natLEBytes s (n / 256)

/-- struct.pack with format <H (unsigned 16-bit little-endian). -/
def u16le (n : Nat) : List Nat := natLEBytes 2 n

/-- struct.pack with format <I (unsigned 32-bit little-endian). -/
def u32le (n : Nat) : List Nat := natLEBytes 4 n

theorem natLEBytes_length (s n : Nat) : (natLEBytes s n).length = s := by
  induction s generalizing n with
  | zero => rfl
  | succ s ih => simp [natLEBytes, ih]

/-! ## linTypes and Command_Parameter (Driver_Interface/IO/Commands.py) -/

/-- A parameter type tag: the struct format character is recorded as a
signedness flag plus the byte size it implies. -/
structure linType where
  signed : Bool
  byte_size : Nat
deriving DecidableEq

def linTypes.Sint16 : linType := { signed := true, byte_size := 2 }
def linTypes.Uint16 : linType := { signed := false, byte_size := 2 }
def linTypes.Uint32 : linType := { signed := false, byte_size := 4 }
def linTypes.Sint32 : linType := { signed := true, byte_size := 4 }

/-- Schema entry for one payload parameter (Commands.py, Command_Parameter). -/
structure Command_Parameter where
  description : String
  type : linType
  unit : String
  conversion_factor : ℚ
deriving DecidableEq

instance : Inhabited Command_Parameter :=
  ⟨{ description := "", type := linTypes.Sint16, unit := "", conversion_factor := 1 }⟩

/-- Python int() applied to a float: truncation toward zero. -/
def pyInt (q : ℚ) : ℤ := if 0 ≤ q then ⌊q⌋ else ⌈q⌉

/-- Packing of one integer parameter value: little-endian two's
complement in the byte size of its type tag (struct.pack behaviour for
in-range values; out-of-range values raise struct.error in Python and
are outside the scope of the length facts proved here). -/
def packInt (t : linType) (v : ℤ) : List Nat :=
  natLEBytes t.byte_size (v % (2 ^ (8 * t.byte_size))).toNat

theorem packInt_length (t : linType) (v : ℤ) : (packInt t v).length = t.byte_size := by
  simp [packInt, natLEBytes_length]

/-! ## Motion_Commmand_Interface (Driver_Interface/IO/Commands.py lines 24-125) -/

/-- State of a constructed motion command: ids, parameter schema and the
raw integer values (already converted from engineering units). -/
structure Motion_Commmand_Interface where
  MASTER_ID : Nat
  SUB_ID : Nat
  MC_PARAMETERS : List Command_Parameter
  values : List ℤ
deriving DecidableEq

/-- Constructor body (Commands.py line 69): raw values are
int(value * conversion_factor), truncation toward zero.  The ValueError
branch for mismatched lengths is not modelled; theorems assume equal
lengths. -/
def motion_command_init (MASTER_ID SUB_ID : Nat)
    (MC_parameters : List Command_Parameter) (vals : List ℚ) : Motion_Commmand_Interface :=
  { MASTER_ID := MASTER_ID, SUB_ID := SUB_ID, MC_PARAMETERS := MC_parameters,
    values := List.zipWith (fun v p => pyInt (v * p.conversion_factor)) vals MC_parameters }

/-- set_MC_parameter_value (Commands.py lines 106-119): in-place mutation
of one raw value, with the same int() conversion. -/
def set_MC_parameter_value (MC : Motion_Commmand_Interface) (index : Nat)
    (MC_value : ℚ) : Motion_Commmand_Interface :=
  { MC with values :=
      MC.values.set index (pyInt (MC_value * (MC.MC_PARAMETERS.getD index default).conversion_factor)) }

/-- Motion-command header (Commands.py lines 86-88). -/
def MC_header_decimal (MC : Motion_Commmand_Interface) (MC_COUNT : Nat) : Nat :=
  MC_COUNT ||| (MC.SUB_ID <<< 4) ||| (MC.MASTER_ID <<< 8)

/-- Motion-command binary (Commands.py line 104): u16 header followed by
the packed parameter values. -/
def MC_get_binary (MC : Motion_Commmand_Interface) (MC_COUNT : Nat) : List Nat :=
  u16le (MC_header_decimal MC MC_COUNT) ++
    (List.zipWith (fun p v => packInt p.type v) MC.MC_PARAMETERS MC.values).flatten

/-! ## Realtime_Config (Driver_Interface/IO/Commands.py lines 127-208) -/

structure Realtime_Config where
  COMMAND_ID : Nat
  DO_parameters : List Command_Parameter
  DO_values : List ℤ
  DI_parameters : List Command_Parameter
deriving DecidableEq

def realtime_config_init (COMMAND_ID : Nat) (DO_parameters : List Command_Parameter)
    (DO_vals : List ℚ) (DI_parameters : List Command_Parameter) : Realtime_Config :=
  { COMMAND_ID := COMMAND_ID, DO_parameters := DO_parameters,
    DO_values := List.zipWith (fun v p => pyInt (v * p.conversion_factor)) DO_vals DO_parameters,
    DI_parameters := DI_parameters }

def RT_header_decimal (rt : Realtime_Config) (COMMAND_COUNT : Nat) : Nat :=
  COMMAND_COUNT ||| (rt.COMMAND_ID <<< 8)

def RT_get_binary (rt : Realtime_Config) (COMMAND_COUNT : Nat) : List Nat :=
  u16le (RT_header_decimal rt COMMAND_COUNT) ++
    (List.zipWith (fun p v => packInt p.type v) rt.DO_parameters rt.DO_values).flatten

def RT_response_byte_size (rt : Realtime_Config) : Nat :=
  2 + (rt.DI_parameters.map (fun p => p.type.byte_size)).sum

/-! ## ControlWord (Driver_Interface/IO/Control_Words.py) -/

structure ControlWord where
  switch_on : Bool := false
  go_to_position : Bool := false
  Error_acknowledge : Bool := false
  jog_move_plus : Bool := false
  jog_move_minus : Bool := false
  special_mode : Bool := false
  home : Bool := false
  clerance_check : Bool := false
  go_to_initial_position : Bool := false
  linearizing : Bool := false
  phase_search : Bool := false
deriving DecidableEq

def ControlWord.decimal (cw : ControlWord) : Nat :=
  (cw.switch_on.toNat <<< 0) ||| (cw.go_to_position.toNat <<< 6) |||
  (cw.Error_acknowledge.toNat <<< 7) ||| (cw.jog_move_plus.toNat <<< 8) |||
  (cw.jog_move_minus.toNat <<< 9) ||| (cw.special_mode.toNat <<< 10) |||
  (cw.home.toNat <<< 11) ||| (cw.clerance_check.toNat <<< 12) |||
  (cw.go_to_initial_position.toNat <<< 13) ||| (cw.linearizing.toNat <<< 14) |||
  (cw.phase_search.toNat <<< 15)

def ControlWord.get_binary (cw : ControlWord) : List Nat := u16le cw.decimal

/-! ## Response descriptor (Driver_Interface/IO/Responses.py lines 79-117, 396-408) -/

structure Response where
  status_word : Bool := false
  state_var : Bool := false
  actual_pos : Bool := false
  demand_pos : Bool := false
  current : Bool := false
  warn_word : Bool := true
  error_code : Bool := true
  monitoring_channel : Bool := false
  realtime_config : Bool := false
deriving DecidableEq

def Response.response_def (r : Response) : List Nat :=
  u32le ((r.status_word.toNat <<< 0) ||| (r.state_var.toNat <<< 1) |||
    (r.actual_pos.toNat <<< 2) ||| (r.demand_pos.toNat <<< 3) |||
    (r.current.toNat <<< 4) ||| (r.warn_word.toNat <<< 5) |||
    (r.error_code.toNat <<< 6) ||| (r.monitoring_channel.toNat <<< 7) |||
    (r.realtime_config.toNat <<< 8))

/-! ## Request (Driver_Interface/IO/Requests.py) -/

structure Request where
  response : Response := {}
  control_word : Option ControlWord := none
  MC_interface : Option Motion_Commmand_Interface := none
  realtime_config : Option Realtime_Config := none
deriving DecidableEq

/-- Request.get_binary (Requests.py lines 37-49): request_def and
response_def words followed by the present optional blocks, control word
first, with no padding of any kind. -/
def Request.get_binary (r : Request) (MC_count realtime_config_command_count : Nat) : List Nat :=
  let request_def := u32le (r.control_word.isSome.toNat |||
    (r.MC_interface.isSome.toNat <<< 1) ||| (r.realtime_config.isSome.toNat <<< 2))
  let MC_interface_binary := match r.MC_interface with
    | some mc => MC_get_binary mc MC_count
    | none => []
  let control_word_binary := match r.control_word with
    | some cw => cw.get_binary
    | none => []
  let realtime_config_binary := match r.realtime_config with
    | some rt => RT_get_binary rt realtime_config_command_count
    | none => []
  (request_def ++ r.response.response_def) ++
    (control_word_binary ++ MC_interface_binary ++ realtime_config_binary)

/-! ## State-var decoding (Driver_Interface/IO/Responses.py lines 156-206) -/

structure State_Var where
  main_state : Nat
  error_code : Option Nat := none
  MC_count : Option Nat := none
  event_handler_active : Option Bool := none
  motion_active : Option Bool := none
  in_target_position : Option Bool := none
  homed : Option Bool := none
  homing_finished : Option Bool := none
  clerance_check_finished : Option Bool := none
  going_to_initial_position_finished : Option Bool := none
  going_to_position_finished : Option Bool := none
  moving_positive : Option Bool := none
  jogging_plus_finished : Option Bool := none
  moving_negative : Option Bool := none
  jogging_negative_finished : Option Bool := none
deriving DecidableEq

/-- The state_var match of translate_response: the two raw bytes are
(sub_state, main_state) and the sub_state interpretation depends on the
main_state. -/
def state_var_decode (sub_state main_state : Nat) : State_Var :=
  match main_state with
  | 3 => { main_state := 3, error_code := some sub_state }
  | 4 => { main_state := 4, error_code := some sub_state }
  | 8 => { main_state := 8,
           MC_count := some (sub_state &&& 0xf),
           event_handler_active := some ((sub_state &&& (1 <<< 4)) != 0),
           motion_active := some ((sub_state &&& (1 <<< 5)) != 0),
           in_target_position := some ((sub_state &&& (1 <<< 6)) != 0),
           homed := some ((sub_state &&& (1 <<< 7)) != 0) }
  | 9 => { main_state := 9, homing_finished := some (sub_state == 0x0f) }
  | 10 => { main_state := 10, clerance_check_finished := some (sub_state == 0x0f) }
  | 11 => { main_state := 11, going_to_initial_position_finished := some (sub_state == 0x0f) }
  | 15 => { main_state := 15, going_to_position_finished := some (sub_state == 0x0f) }
  | 16 => { main_state := 16, moving_positive := some (sub_state == 0x01),
            jogging_plus_finished := some (sub_state == 0x0f) }
  | 17 => { main_state := 17, moving_negative := some (sub_state == 0x01),
            jogging_negative_finished := some (sub_state == 0x0f) }
  | other => { main_state := other }

/-! ## Warn-word decoding (Driver_Interface/IO/Responses.py lines 217-302) -/

structure Warn_Word where
  bit : Nat
  name : String
  meaning : String
deriving DecidableEq

/-- The fixed bit table of the warn_word branch, in source order. -/
def warn_word_table : List Warn_Word :=
  [ { bit := 0, name := "Motor hot sensor", meaning := "Motor temperature sensor on" },
    { bit := 1, name := "Motor short time overload I^2t",
      meaning := "Calculated motor temperature reached warn limit" },
    { bit := 2, name := "Motor supply voltage low",
      meaning := "Motor supply voltage reached low warn limit" },
    { bit := 3, name := "Motor supply voltage high",
      meaning := "Motor supplt voltage reached high warn limit" },
    { bit := 4, name := "Position lag always",
      meaning := "Position error during moving reached warn limit" },
    { bit := 6, name := "Drive hot", meaning := "Temperature on servo drive high" },
    { bit := 7, name := "Motor not homed", meaning := "Motor not homed yet" },
    { bit := 8, name := "PTC sensor 1 hot", meaning := "PTC temperature sensor 1 on" },
    { bit := 9, name := "Reserved PTC 2", meaning := "PTC temperature sensor 2 on" },
    { bit := 10, name := "RR hot calculated",
      meaning := "Regenerative resistor temperature hot calculated" },
    { bit := 11, name := "Speed lag always", meaning := "Speed lag is above warn limit" },
    { bit := 12, name := "Position sensor", meaning := "Position is in warn condition" },
    { bit := 14, name := "Interface warn flag", meaning := "Warn flag of interface SW layer" },
    { bit := 15, name := "Application warn flag", meaning := "Warn flag of application SW layer" } ]

/-- The sequence of if-appends of the warn_word branch: one entry per set
bit of the mask, in table order. -/
def warn_word_decode (mask : Nat) : List Warn_Word :=
  warn_word_table.filter (fun w => (mask &&& (1 <<< w.bit)) != 0)

/-! ## Driver._warning_handler (hardware/Drivers.py lines 314-344)

The removal phase iterates with a live CPython list iterator while
popping from the same list: after pop(i) the iterator next reads the
element now at position i + 1, which is the element that originally sat
two places after the popped one.  pop_loop reproduces exactly that read
position arithmetic; the fuel argument only bounds the recursion (each
step moves the read position forward, so stored.length + 1 steps always
suffice). -/

def pop_loop : Nat → List Warn_Word → List Nat → Nat → List Warn_Word
  | 0, l, _, _ => l
  | fuel + 1, l, new_warning_bits, p =>
    if h : p < l.length then
      if new_warning_bits.contains (l.get ⟨p, h⟩).bit then
        pop_loop fuel l new_warning_bits (p + 1)
      else
        pop_loop fuel (l.eraseIdx p) new_warning_bits (p + 1)
    else l

/-- The warning handler: return unchanged when the response carried no
warn_word; otherwise append the warnings whose bit is new (comparing
against the bit set frozen before the appends), then run the removal
loop over the live list. -/
def warning_handler (stored : List Warn_Word) (warn_word : Option (List Warn_Word)) :
    List Warn_Word :=
  match warn_word with
  | none => stored
  | some warning_words =>
    let already_present_warning_bits := stored.map (fun w => w.bit)
    let new_warning_bits := warning_words.map (fun w => w.bit)
    let after_insert := stored ++
      warning_words.filter (fun w => ¬ already_present_warning_bits.contains w.bit)
    pop_loop (after_insert.length + 1) after_insert new_warning_bits 0

/-! ## Driver.send retry behaviour (hardware/Drivers.py lines 99-170)

The counter state of one drive worker.  send pre-increments MC_count
when the request carries a motion command (after a one-shot lazy
initialization from the drive, supplied here as the initMC and initRT
arguments), masks the counters to 4 bits for the wire, transmits, and on
timeout calls itself again from the top while _send_attempt is below
max_send_attempts.  The oracle maps an attempt number to whether a
response arrives within the timeout for that attempt. -/

structure DriveCounters where
  MC_count : Nat
  MC_count_up_to_date : Bool
  realtime_config_command_count : Nat
  realtime_config_count_up_to_date : Bool
  send_attempt : Nat
  max_send_attempts : Nat
deriving DecidableEq

inductive SendOutcome
  | ok
  | timedOut
deriving DecidableEq

/-- One entry of the trace: the (MC_count, rt_count) pair carried by an
emitted datagram after the 4-bit masking. -/
abbrev WireCounts := Nat × Nat

/-- The entry sequence of Driver.send (lines 116-134): lazy counter
initialization, pre-increment of the counter belonging to each block the
request carries, and the 4-bit masking for the wire.  Returns the
updated state and the wire counter pair of the emitted datagram. -/
def send_step (hasMC hasRT : Bool) (initMC initRT : Nat) (st : DriveCounters) :
    DriveCounters × WireCounts :=
  let st1 := if hasMC then
      { st with
        MC_count := (if st.MC_count_up_to_date then st.MC_count else initMC) + 1,
        MC_count_up_to_date := true }
    else st
  let st2 := if hasRT then
      { st1 with
        realtime_config_command_count :=
          (if st1.realtime_config_count_up_to_date then
            st1.realtime_config_command_count else initRT) + 1,
        realtime_config_count_up_to_date := true }
    else st1
  (st2, (st2.MC_count &&& 0xf, st2.realtime_config_command_count &&& 0xf))

/-- The increment of _send_attempt taken on the retry path (line 166). -/
def bump_attempt (st : DriveCounters) : DriveCounters :=
  { st with send_attempt := st.send_attempt + 1 }

/-- The recursive body of Driver.send, restricted to the counter and
retry logic.  The fuel argument only bounds the recursion; the wrapper
driver_send passes max_send_attempts - send_attempt, which the retry
guard (send_attempt < max_send_attempts) never exceeds, so the zero-fuel
equation (whose retry branch cannot recurse, and which emits the same
single datagram and TimeoutError the guard would) is only taken when the
guard fails. -/
def send_loop (hasMC hasRT : Bool) (initMC initRT : Nat) (oracle : Nat → Bool) :
    Nat → DriveCounters → List WireCounts × SendOutcome × DriveCounters
  | 0, st =>
    let r := send_step hasMC hasRT initMC initRT st
    if oracle r.1.send_attempt then
      ([r.2], SendOutcome.ok, { r.1 with send_attempt := 1 })
    else
      ([r.2], SendOutcome.timedOut, r.1)
  | fuel + 1, st =>
    let r := send_step hasMC hasRT initMC initRT st
    if oracle r.1.send_attempt then
      ([r.2], SendOutcome.ok, { r.1 with send_attempt := 1 })
    else if r.1.send_attempt < r.1.max_send_attempts then
      let rest := send_loop hasMC hasRT initMC initRT oracle fuel (bump_attempt r.1)
      (r.2 :: rest.1, rest.2.1, rest.2.2)
    else
      ([r.2], SendOutcome.timedOut, r.1)

/-- Driver.send: the trace of emitted wire counter pairs, the outcome
(translated response received, or TimeoutError raised) and the final
counter state. -/
def driver_send (hasMC hasRT : Bool) (initMC initRT : Nat) (oracle : Nat → Bool)
    (st : DriveCounters) : List WireCounts × SendOutcome × DriveCounters :=
  send_loop hasMC hasRT initMC initRT oracle (st.max_send_attempts - st.send_attempt) st

/-! ## The ignored_if_awaiting_error_acknowledgement guard and home
(hardware/Drivers.py lines 91-97 and 189-237) -/

/-- Datagrams a guarded worker method can transmit, named after the
request they encode. -/
inductive WorkerDatagram
  | stateVarQuery
  | controlWordSend (cw : ControlWord)
deriving DecidableEq

/-- The part of one drive worker state the guard decision and the home
body touch. -/
structure DriverWorker where
  awaiting_error_acknowledgement : Bool
  sent_datagrams : List WorkerDatagram
deriving DecidableEq

def pushDatagram (s : DriverWorker) (d : WorkerDatagram) : DriverWorker :=
  { s with sent_datagrams := s.sent_datagrams ++ [d] }

/-- The decorator (lines 91-97): run the method only when the flag is
down; otherwise the wrapper body is skipped and the implicit Python
return value None is produced, with no state change and no transmission.
The worker thread then resolves the completion Future with exactly this
wrapper return value, so a skipped method resolves to none. -/
def ignored_if_awaiting_error_acknowledgement {α : Type}
    (method : DriverWorker → α × DriverWorker) (s : DriverWorker) :
    Option α × DriverWorker :=
  if s.awaiting_error_acknowledgement = false then
    let r := method s
    (some r.1, r.2)
  else (none, s)

/-- The polling loop of home (wait_for_change at a 1 Hz delay): one
state_var request per poll; the fuel is the number of polls the timeout
allows.  The oracle gives the decoded state_var of successive responses. -/
def home_poll (oracle : Nat → State_Var) : Nat → Nat → DriverWorker → Bool × DriverWorker
  | 0, _, s => (false, s)
  | fuel + 1, idx, s =>
    let s := pushDatagram s WorkerDatagram.stateVarQuery
    if (oracle idx).homing_finished = some true then (true, s)
    else home_poll oracle fuel (idx + 1) s

/-- The body of home (lines 191-237), beneath both decorators: real time
is abstracted into a poll budget and the responses into an oracle
indexed by send order.  Note the source checks state_var.main_state (the
first response) after fetching a fresh main state. -/
def home_body (oracle : Nat → State_Var) (poll_budget : Nat)
    (overwrite_already_home_check : Bool) (s : DriverWorker) : Bool × DriverWorker :=
  let s := pushDatagram s WorkerDatagram.stateVarQuery
  let state_var := oracle 0
  if state_var.homed = some true ∧ ¬ overwrite_already_home_check then (true, s)
  else
    let s := pushDatagram s WorkerDatagram.stateVarQuery
    if state_var.main_state ≠ 8 then (false, s)
    else
      let s := pushDatagram s
        (WorkerDatagram.controlWordSend { switch_on := true, home := true })
      let polled := home_poll oracle poll_budget 2 s
      if polled.1 then
        (true, pushDatagram polled.2 (WorkerDatagram.controlWordSend { switch_on := true }))
      else
        (false, pushDatagram polled.2 (WorkerDatagram.controlWordSend {}))

/-- home as dispatched on the worker thread: the guard wraps the body,
and the completion Future resolves with the wrapper result. -/
def home (oracle : Nat → State_Var) (poll_budget : Nat)
    (overwrite_already_home_check : Bool) (s : DriverWorker) :
    Option Bool × DriverWorker :=
  ignored_if_awaiting_error_acknowledgement
    (home_body oracle poll_budget overwrite_already_home_check) s

/-! ## Controller fan-in (manipulator/control.py lines 143-151, 192-201) -/

/-- Exceptions a completion handle can surface. -/
inductive DriverExc
  | driveError (code : Nat)
  | otherError (msg : String)
deriving DecidableEq

/-- _read_from_futures (control.py lines 150-151): the list comprehension
[future.result() for future in self.futures].  The first component is
the list of handles on which result() was called (in submission order);
the comprehension aborts at the first handle that raises, so later
handles are never awaited. -/
def read_from_futures {α : Type} :
    List (Except DriverExc α) → List (Except DriverExc α) × Except DriverExc (List α)
  | [] => ([], Except.ok [])
  | f :: rest =>
    match f with
    | Except.error e => ([f], Except.error e)
    | Except.ok v =>
      let r := read_from_futures rest
      (f :: r.1,
        match r.2 with
        | Except.ok vs => Except.ok (v :: vs)
        | Except.error e => Except.error e)

/-- _wait_for_response_on_all (control.py lines 143-148): result() on
every handle in order, continuing past DriveError only; any other
exception propagates at once. -/
def wait_for_response_on_all {α : Type} :
    List (Except DriverExc α) → List (Except DriverExc α) × Option DriverExc
  | [] => ([], none)
  | f :: rest =>
    match f with
    | Except.error (DriverExc.otherError m) => ([f], some (DriverExc.otherError m))
    | _ =>
      let r := wait_for_response_on_all rest
      (f :: r.1, r.2)

/-- The fan-in step of move_all_with_constant_velocity (control.py line
200): it reads the results through _read_from_futures. -/
def move_all_fan_in {α : Type} (futures : List (Except DriverExc α)) :
    List (Except DriverExc α) × Except DriverExc (List α) :=
  read_from_futures futures

/-! ## feedback_loop exception handler (manipulator/control.py lines 262-272)

The except block runs, inside a nested try, the loop
for driver in drivers: driver.move_with_constant_velocity([0]*n); raise e1
so a stop task is submitted only to the first drive (with the whole zero
list as its velocity argument) before e1 is re-raised; the nested except
then rethrows it as e2.  With no drives the inner try completes, nothing
is rethrown and the surrounding while loop continues. -/

inductive CycleExit
  | rethrown
  | swallowed
deriving DecidableEq

/-- The stop loop of the handler: the pairs (drive, velocity argument) it
submits and whether the raise statement inside the loop body ran. -/
def stop_drives_loop (drivers : List String) (n : Nat) :
    List (String × List ℚ) × Bool :=
  match drivers with
  | [] => ([], false)
  | d :: _ => ([(d, List.replicate n 0)], true)

/-- The whole except-block: the submitted stop tasks and whether the
original exception leaves the handler. -/
def feedback_exception_handler (drivers : List String) :
    List (String × List ℚ) × CycleExit :=
  let r := stop_drives_loop drivers drivers.length
  if r.2 then (r.1, CycleExit.rethrown) else (r.1, CycleExit.swallowed)

/-! ## Helper lemmas -/

theorem map_length_pack (ps : List Command_Parameter) (vs : List ℤ) :
    (List.zipWith (fun p v => packInt p.type v) ps vs).map List.length
      = List.zipWith (fun (p : Command_Parameter) (_ : ℤ) => p.type.byte_size) ps vs := by
  induction ps generalizing vs with
  | nil => simp
  | cons p ps ih =>
    cases vs with
    | nil => simp
    | cons v vs => simp [packInt_length, ih]

theorem zipWith_getD {α β γ : Type} (f : α → β → γ) (l1 : List α) (l2 : List β)
    (i : Nat) (d1 : α) (d2 : β) (dg : γ) (h1 : i < l1.length) (h2 : i < l2.length) :
    (List.zipWith f l1 l2).getD i dg = f (l1.getD i d1) (l2.getD i d2) := by
  induction l1 generalizing l2 i with
  | nil => simp at h1
  | cons a l1 ih =>
    cases l2 with
    | nil => simp at h2
    | cons b l2 =>
      cases i with
      | zero => simp [List.getD]
      | succ i =>
        simp only [List.length_cons, Nat.succ_lt_succ_iff] at h1 h2
        simpa [List.getD] using ih l2 i h1 h2

theorem getD_set_self (l : List ℤ) (i : Nat) (x : ℤ) (h : i < l.length) :
    (l.set i x).getD i 0 = x := by
  induction l generalizing i with
  | nil => simp at h
  | cons a l ih =>
    cases i with
    | zero => simp [List.getD]
    | succ i =>
      simp only [List.length_cons, Nat.succ_lt_succ_iff] at h
      simpa [List.getD] using ih i h

/-! ## C4: request encoding length -/

/-- C4 counterexample: the claim states every encoded request is at least
14 bytes (two def-words plus a payload zero-padded to at least 6 bytes).
The encoder of Requests.py adds no padding: a request with no control
word, no motion command and no realtime config encodes to exactly the 8
def-word bytes. -/
theorem C4_counterexample :
    (Request.get_binary {} 0 0).length = 8 ∧ ¬ 14 ≤ (Request.get_binary {} 0 0).length := by
  decide

/-- C4 (amended): for every Request, the encoded byte string is the two
4-byte def-words followed immediately by the present optional blocks
(control word 2 bytes, motion command 2 bytes plus the packed parameter
bytes, realtime config 2 bytes plus the packed output-parameter bytes),
with no zero padding, so the minimum encoded length is 8 bytes, not 14. -/
theorem C4_request_length (r : Request) (mc rt : Nat) :
    (r.get_binary mc rt).length =
      8 + (match r.control_word with
            | some _ => 2
            | none => 0)
        + (match r.MC_interface with
            | some m => 2 + (List.zipWith
                (fun (p : Command_Parameter) (_ : ℤ) => p.type.byte_size)
                m.MC_PARAMETERS m.values).sum
            | none => 0)
        + (match r.realtime_config with
            | some c => 2 + (List.zipWith
                (fun (p : Command_Parameter) (_ : ℤ) => p.type.byte_size)
                c.DO_parameters c.DO_values).sum
            | none => 0) := by
  rcases r with ⟨resp, cw, mci, rtc⟩
  simp only [Request.get_binary, Response.response_def, u32le, u16le]
  cases cw <;> cases mci <;> cases rtc <;>
    simp [MC_get_binary, RT_get_binary, ControlWord.get_binary, u16le, u32le,
      natLEBytes_length, map_length_pack] <;> omega

/-! ## C5: engineering-unit conversion -/

/-- A sample parameter schema entry used by the C5 counterexample. -/
def c5_parameter : Command_Parameter :=
  { description := "demand position", type := linTypes.Sint32, unit := "m",
    conversion_factor := 2 }

/-- C5 counterexample: the claim states the raw integer equals
round(value x conversion_factor) (nearest integer).  The constructor of
Commands.py applies int(), which truncates toward zero: for value 3/4
and factor 2 the product is 3/2, the code packs 1 while the nearest
integer is 2. -/
theorem C5_counterexample :
    (motion_command_init 1 0 [c5_parameter] [(3 : ℚ)/4]).values = [1] ∧
    round (((3 : ℚ)/4) * c5_parameter.conversion_factor) = 2 ∧
    (motion_command_init 1 0 [c5_parameter] [(3 : ℚ)/4]).values
      ≠ [round (((3 : ℚ)/4) * c5_parameter.conversion_factor)] := by
  have hval : (motion_command_init 1 0 [c5_parameter] [(3 : ℚ)/4]).values = [1] := by
    simp only [motion_command_init, List.zipWith, pyInt, c5_parameter]
    norm_num
  have hround : round (((3 : ℚ)/4) * c5_parameter.conversion_factor) = 2 := by
    simp only [c5_parameter]
    rw [show ((3 : ℚ)/4 * 2) = 3/2 by norm_num]
    rw [round_eq]
    norm_num
  refine ⟨hval, hround, ?_⟩
  rw [hval, hround]
  decide

/-- C5 (amended): the raw integer equals int(value x conversion_factor),
i.e. the truncation toward zero (floor for a non-negative product,
ceiling for a negative one), both at command construction and when a
parameter value is mutated in place for streaming. -/
theorem C5_raw_truncates (MASTER_ID SUB_ID : Nat) (params : List Command_Parameter)
    (vals : List ℚ) (i : Nat) (h1 : i < vals.length) (h2 : i < params.length) :
    ((motion_command_init MASTER_ID SUB_ID params vals).values.getD i 0 =
      (let x := vals.getD i 0 * (params.getD i default).conversion_factor
       if 0 ≤ x then ⌊x⌋ else ⌈x⌉))
    ∧ (∀ (MC : Motion_Commmand_Interface) (v : ℚ), i < MC.values.length →
        (set_MC_parameter_value MC i v).values.getD i 0 =
          (let x := v * (MC.MC_PARAMETERS.getD i default).conversion_factor
           if 0 ≤ x then ⌊x⌋ else ⌈x⌉)) := by
  constructor
  · simp only [motion_command_init]
    rw [zipWith_getD (fun v p => pyInt (v * p.conversion_factor)) vals params i 0 default 0 h1 h2]
    rfl
  · intro MC v hv
    simp only [set_MC_parameter_value]
    rw [getD_set_self _ _ _ hv]
    rfl

/-- C5 witness: the amended statement applied at a concrete parameter,
value and mutation. -/
theorem C5_witness :
    ((motion_command_init 1 0 [c5_parameter] [(3 : ℚ)/4]).values.getD 0 0 =
      (let x := ((3 : ℚ)/4) * c5_parameter.conversion_factor
       if 0 ≤ x then ⌊x⌋ else ⌈x⌉))
    ∧ ((set_MC_parameter_value (motion_command_init 1 0 [c5_parameter] [(3 : ℚ)/4]) 0
          (-(7 : ℚ)/8)).values.getD 0 0 =
        (let x := (-(7 : ℚ)/8) *
            ((motion_command_init 1 0 [c5_parameter] [(3 : ℚ)/4]).MC_PARAMETERS.getD 0
              default).conversion_factor
         if 0 ≤ x then ⌊x⌋ else ⌈x⌉)) := by
  have h := C5_raw_truncates 1 0 [c5_parameter] [(3 : ℚ)/4] 0 (by decide) (by decide)
  exact ⟨h.1, h.2 (motion_command_init 1 0 [c5_parameter] [(3 : ℚ)/4]) (-(7 : ℚ)/8) (by decide)⟩

/-! ## C6: state-var decoding of (sub = 0x5F, main = 8) -/

/-- C6 counterexample: the claim states the decoded motion_active is
true.  Bit 5 of 0x5F is clear, so translate_response reports
motion_active = false for that byte. -/
theorem C6_counterexample : ¬ (state_var_decode 0x5f 8).motion_active = some true := by
  decide

/-- C6 (amended): decoding (sub = 0x5F, main = 8) yields MC_count = 0x0F
with event_handler_active and in_target_position true, but motion_active
false (bit 5 of 0x5F is clear) and homed false (bit 7 clear). -/
theorem C6_state_var_5f :
    state_var_decode 0x5f 8 =
      { main_state := 8, MC_count := some 0x0f, event_handler_active := some true,
        motion_active := some false, in_target_position := some true,
        homed := some false } := by
  decide

/-! ## C3: warning-set mirroring -/

/-- C3 failing input evaluated: the drive first reports warn word 0x0003
(bits 0 and 1 active), then 0x0000 (all warnings cleared).  The removal
loop pops while iterating, skips the element after each pop, and leaves
the bit-1 warning stored although the wire set is empty. -/
theorem C3_bug_eval :
    warning_handler (warning_handler [] (some (warn_word_decode 0x0003)))
        (some (warn_word_decode 0x0000))
      = [{ bit := 1, name := "Motor short time overload I^2t",
           meaning := "Calculated motor temperature reached warn limit" }]
    ∧ warn_word_decode 0x0000 = [] := by
  exact ⟨by decide, by decide⟩

/-! ## C2: feedback-loop exception handler -/

/-- C2 failing input evaluated: with the three enabled drives, an
exception in a cycle makes the handler submit a stop task only to
DRIVE_1 (and with the whole zero list as its velocity argument) before
the original exception is rethrown; DRIVE_2 and DRIVE_3 receive
nothing. -/
theorem C2_bug_eval :
    feedback_exception_handler ["DRIVE_1", "DRIVE_2", "DRIVE_3"]
      = ([("DRIVE_1", [0, 0, 0])], CycleExit.rethrown)
    ∧ (feedback_exception_handler ["DRIVE_1", "DRIVE_2", "DRIVE_3"]).1.length ≠ 3 := by
  exact ⟨by decide, by decide⟩

/-! ## C8: controller fan-in -/

/-- C8 counterexample: the claim states that when one per-drive task
raises during fan-in, the controller still waits on the completion
handles of all remaining drives.  move_all_with_constant_velocity reads
results through _read_from_futures, whose list comprehension aborts at
the first raising handle: with the first of three handles raising, only
one handle is ever awaited. -/
theorem C8_counterexample :
    (move_all_fan_in [Except.error (DriverExc.driveError 7),
        Except.ok (1 : ℚ), Except.ok 2]).1.length = 1
    ∧ ¬ (move_all_fan_in [Except.error (DriverExc.driveError 7),
        Except.ok (1 : ℚ), Except.ok 2]).1.length = 3 := by
  exact ⟨rfl, by decide⟩

/-- C8 (amended): move_all_with_constant_velocity awaits the handles in
submission order; when no task raises it returns only after every task
has resolved (every handle is awaited and the results are collected),
but when a task raises, the exception propagates at once and the handles
of the drives after it are not awaited. -/
theorem C8_fan_in (futures : List (Except DriverExc ℚ))
    (h : ∀ f ∈ futures, ∃ v, f = Except.ok v) :
    (move_all_fan_in futures).1 = futures
    ∧ ∃ vs, (move_all_fan_in futures).2 = Except.ok vs := by
  induction futures with
  | nil => exact ⟨rfl, [], rfl⟩
  | cons f rest ih =>
    have hrest : ∀ g ∈ rest, ∃ v, g = Except.ok v :=
      fun g hg => h g (List.mem_cons_of_mem f hg)
    obtain ⟨v, rfl⟩ := h f (List.mem_cons_self f rest)
    obtain ⟨h1, vs, h2⟩ := ih hrest
    refine ⟨?_, v :: vs, ?_⟩
    · simp only [move_all_fan_in, read_from_futures] at h1 ⊢
      rw [h1]
    · simp only [move_all_fan_in, read_from_futures] at h2 ⊢
      rw [h2]

/-- C8 witness: the amended statement applied to two resolved handles. -/
theorem C8_witness :
    (move_all_fan_in [Except.ok (1 : ℚ), Except.ok 2]).1
        = [Except.ok (1 : ℚ), Except.ok 2]
    ∧ ∃ vs, (move_all_fan_in [Except.ok (1 : ℚ), Except.ok 2]).2 = Except.ok vs := by
  refine C8_fan_in [Except.ok (1 : ℚ), Except.ok 2] ?_
  intro f hf
  simp only [List.mem_cons, List.not_mem_nil, or_false] at hf
  rcases hf with rfl | rfl
  · exact ⟨1, rfl⟩
  · exact ⟨2, rfl⟩

/-! ## C7: guarded methods while awaiting error acknowledgement -/

/-- C7: while awaiting_error_acknowledgement is true, any method wrapped
by the ignored_if_awaiting_error_acknowledgement guard resolves to the
neutral value none with the worker state untouched, and in particular a
queued home call resolves to none without transmitting any datagram. -/
theorem C7_guard_skip {α : Type} (method : DriverWorker → α × DriverWorker)
    (oracle : Nat → State_Var) (poll_budget : Nat) (overwrite : Bool)
    (s : DriverWorker) (h : s.awaiting_error_acknowledgement = true) :
    ignored_if_awaiting_error_acknowledgement method s = (none, s)
    ∧ home oracle poll_budget overwrite s = (none, s)
    ∧ (home oracle poll_budget overwrite s).2.sent_datagrams = s.sent_datagrams := by
  have hguard : ∀ (β : Type) (m : DriverWorker → β × DriverWorker),
      ignored_if_awaiting_error_acknowledgement m s = (none, s) := by
    intro β m
    simp [ignored_if_awaiting_error_acknowledgement, h]
  refine ⟨hguard α method, hguard Bool _, ?_⟩
  rw [home, hguard Bool _]

/-- A worker state with the error-acknowledgement flag raised, used by
the C7 witness. -/
def c7_worker : DriverWorker :=
  { awaiting_error_acknowledgement := true, sent_datagrams := [] }

/-- C7 witness: the guard theorem applied at a concrete worker state,
method and oracle. -/
theorem C7_witness :
    ignored_if_awaiting_error_acknowledgement (fun s => (true, s)) c7_worker
        = (none, c7_worker)
    ∧ home (fun _ => { main_state := 8 }) 3 false c7_worker = (none, c7_worker)
    ∧ (home (fun _ => { main_state := 8 }) 3 false c7_worker).2.sent_datagrams
        = c7_worker.sent_datagrams :=
  C7_guard_skip (fun s => (true, s)) (fun _ => { main_state := 8 }) 3 false c7_worker rfl

/-! ## C1: MC_count across retries of one logical request -/

/-- The counter state used by the C1 counterexample and witness: counters
initialized and up to date, first attempt, default max_send_attempts. -/
def c1_state : DriveCounters :=
  { MC_count := 0, MC_count_up_to_date := true,
    realtime_config_command_count := 0, realtime_config_count_up_to_date := true,
    send_attempt := 1, max_send_attempts := 5 }

/-- C1 counterexample: the claim states all datagrams of one logical
motion-command request carry the same MC_count.  With the first attempt
timing out and the second answered, the retry re-enters send from the
top and pre-increments MC_count again: the two datagrams carry wire
counts 1 and 2. -/
theorem C1_counterexample :
    ((driver_send true false 0 0 (fun k => decide (2 ≤ k)) c1_state).1.map Prod.fst
      = [1, 2])
    ∧ (1 : Nat) ≠ 2 := by
  exact ⟨rfl, by decide⟩

theorem bump_attempt_MC_count (st : DriveCounters) :
    (bump_attempt st).MC_count = st.MC_count := rfl

theorem bump_attempt_up_to_date (st : DriveCounters) :
    (bump_attempt st).MC_count_up_to_date = st.MC_count_up_to_date := rfl

theorem bump_attempt_send_attempt (st : DriveCounters) :
    (bump_attempt st).send_attempt = st.send_attempt + 1 := rfl

theorem bump_attempt_max (st : DriveCounters) :
    (bump_attempt st).max_send_attempts = st.max_send_attempts := rfl

theorem send_step_attempt_max (hasMC hasRT : Bool) (initMC initRT : Nat)
    (st : DriveCounters) :
    (send_step hasMC hasRT initMC initRT st).1.send_attempt = st.send_attempt
    ∧ (send_step hasMC hasRT initMC initRT st).1.max_send_attempts
        = st.max_send_attempts := by
  cases hasMC <;> cases hasRT <;> simp [send_step]

theorem send_step_fields (hasRT : Bool) (initMC initRT : Nat) (st : DriveCounters)
    (hup : st.MC_count_up_to_date = true) :
    (send_step true hasRT initMC initRT st).1.MC_count = st.MC_count + 1
    ∧ (send_step true hasRT initMC initRT st).1.MC_count_up_to_date = true
    ∧ (send_step true hasRT initMC initRT st).2.1 = (st.MC_count + 1) &&& 0xf := by
  simp only [send_step, hup, if_true]
  cases hasRT <;> simp

theorem send_loop_mc_counts (hasRT : Bool) (initMC initRT : Nat) (oracle : Nat → Bool)
    (fuel : Nat) :
    ∀ st : DriveCounters, st.MC_count_up_to_date = true →
      (send_loop true hasRT initMC initRT oracle fuel st).1.map Prod.fst
        = (List.range (send_loop true hasRT initMC initRT oracle fuel st).1.length).map
            (fun i => (st.MC_count + 1 + i) &&& 0xf) := by
  induction fuel with
  | zero =>
    intro st hup
    obtain ⟨e1, _e2, e5⟩ := send_step_fields hasRT initMC initRT st hup
    simp only [send_loop]
    by_cases hor : oracle (send_step true hasRT initMC initRT st).1.send_attempt <;>
      simp [hor, e5, List.range_succ]
  | succ fuel ih =>
    intro st hup
    obtain ⟨e1, e2, e5⟩ := send_step_fields hasRT initMC initRT st hup
    simp only [send_loop]
    by_cases hor : oracle (send_step true hasRT initMC initRT st).1.send_attempt
    · simp [hor, e5, List.range_succ]
    · by_cases hretry : (send_step true hasRT initMC initRT st).1.send_attempt
          < (send_step true hasRT initMC initRT st).1.max_send_attempts
      · have hrec := ih (bump_attempt (send_step true hasRT initMC initRT st).1)
          (by rw [bump_attempt_up_to_date]; exact e2)
        simp only [hor, if_false, hretry, if_true, Bool.false_eq_true]
        simp only [List.map_cons, List.length_cons, e5]
        rw [hrec]
        simp only [bump_attempt_MC_count, e1]
        rw [List.range_succ_eq_map]
        simp only [List.map_cons, List.map_map, List.cons.injEq]
        refine ⟨by simp, ?_⟩
        apply List.map_congr_left
        intro a _
        simp only [Function.comp_apply]
        congr 1
        omega
      · simp [hor, hretry, e5, List.range_succ]

theorem send_loop_all_timeout (hasRT : Bool) (initMC initRT : Nat) (oracle : Nat → Bool)
    (hor : ∀ k, oracle k = false) (fuel : Nat) :
    ∀ st : DriveCounters,
      (send_loop true hasRT initMC initRT oracle fuel st).2.1 = SendOutcome.timedOut
      ∧ ((fuel + st.send_attempt = st.max_send_attempts) →
          (send_loop true hasRT initMC initRT oracle fuel st).1.length = fuel + 1) := by
  induction fuel with
  | zero =>
    intro st
    simp [send_loop, hor]
  | succ fuel ih =>
    intro st
    obtain ⟨hsa, hma⟩ := send_step_attempt_max true hasRT initMC initRT st
    simp only [send_loop, hor, if_false, Bool.false_eq_true]
    by_cases hretry : (send_step true hasRT initMC initRT st).1.send_attempt
        < (send_step true hasRT initMC initRT st).1.max_send_attempts
    · have hrec := ih (bump_attempt (send_step true hasRT initMC initRT st).1)
      refine ⟨by simp [hretry, hrec.1], ?_⟩
      intro hmax
      have hlen := hrec.2 (by
        rw [bump_attempt_send_attempt, bump_attempt_max, hsa, hma]
        omega)
      simp only [hretry, if_true, List.length_cons]
      omega
    · refine ⟨by simp [hretry], ?_⟩
      intro hmax
      exfalso
      rw [hsa, hma] at hretry
      omega

/-- C1 (amended): a retry of Driver.send re-enters the method from the
top and pre-increments MC_count again, so for one logical motion-command
request the i-th datagram on the wire carries (MC_count + 1 + i) masked
to 4 bits - successive attempts carry successive counter values, not the
same one.  TimeoutError is still raised only after max_send_attempts
attempts: when every attempt times out, exactly max_send_attempts
datagrams are emitted and the outcome is TimeoutError. -/
theorem C1_retry_counters (hasRT : Bool) (initMC initRT : Nat) (oracle : Nat → Bool)
    (st : DriveCounters) (hup : st.MC_count_up_to_date = true)
    (hat : st.send_attempt = 1) (hmax : 1 ≤ st.max_send_attempts) :
    ((driver_send true hasRT initMC initRT oracle st).1.map Prod.fst
      = (List.range (driver_send true hasRT initMC initRT oracle st).1.length).map
          (fun i => (st.MC_count + 1 + i) &&& 0xf))
    ∧ ((∀ k, oracle k = false) →
        (driver_send true hasRT initMC initRT oracle st).2.1 = SendOutcome.timedOut
        ∧ (driver_send true hasRT initMC initRT oracle st).1.length
            = st.max_send_attempts) := by
  simp only [driver_send]
  constructor
  · exact send_loop_mc_counts hasRT initMC initRT oracle _ st hup
  · intro horacle
    have h := send_loop_all_timeout hasRT initMC initRT oracle horacle
      (st.max_send_attempts - st.send_attempt) st
    refine ⟨h.1, ?_⟩
    have := h.2 (by omega)
    omega

/-- C1 witness: the amended statement applied at a concrete state and
the all-timeout oracle. -/
theorem C1_witness :
    ((driver_send true false 0 0 (fun _ => false) c1_state).1.map Prod.fst
      = (List.range (driver_send true false 0 0 (fun _ => false) c1_state).1.length).map
          (fun i => (c1_state.MC_count + 1 + i) &&& 0xf))
    ∧ ((driver_send true false 0 0 (fun _ => false) c1_state).2.1 = SendOutcome.timedOut
        ∧ (driver_send true false 0 0 (fun _ => false) c1_state).1.length
            = c1_state.max_send_attempts) := by
  have h := C1_retry_counters false 0 0 (fun _ => false) c1_state rfl rfl (by decide)
  exact ⟨h.1, h.2 (fun _ => rfl)⟩

/-! ## Path follower (Velocity_calculator_v2.py)

The follower is floating-point NumPy code; it is embedded over the exact
reals.  NumPy never raises on float arithmetic (division by zero yields
inf or nan), so total real arithmetic with the Lean convention x / 0 = 0
preserves the control flow; value-level facts that depend on a zero
denominator are stated under that convention.  The follower can only
complete a call in two dimensions - in higher dimensions the hard-coded
two-element list passed to off_path_vector makes the NumPy addition at
line 188 raise - so vectors are modelled as real pairs.  scipy bisect is
modelled as exact interval bisection with a fixed iteration budget; no
theorem below depends on the value it returns, only on it being some
real number. -/

noncomputable section

abbrev Vec2 := ℝ × ℝ

def vadd (a b : Vec2) : Vec2 := (a.1 + b.1, a.2 + b.2)

def vsub (a b : Vec2) : Vec2 := (a.1 - b.1, a.2 - b.2)

def smul (c : ℝ) (a : Vec2) : Vec2 := (c * a.1, c * a.2)

def vdot (a b : Vec2) : ℝ := a.1 * b.1 + a.2 * b.2

/-- np.linalg.norm of a 2-vector. -/
def norm2 (a : Vec2) : ℝ := Real.sqrt (vdot a a)

/-- np.abs(v).max(): the supremum norm used by the clipping test. -/
def linf (a : Vec2) : ℝ := max |a.1| |a.2|

def vdiv (a : Vec2) (c : ℝ) : Vec2 := (a.1 / c, a.2 / c)

inductive TelemetryValue
  | scalar (x : ℝ)
  | vector (v : Vec2)

/-- The telemetry sink (control.py Telemetry): append is a no-op when
recording is disabled, otherwise it extends the column keyed by the
string (modelled as the flat list of performed appends). -/
structure Telemetry where
  enabled : Bool := true
  data : List (String × TelemetryValue) := []

def Telemetry.append (t : Telemetry) (key : String) (value : TelemetryValue) : Telemetry :=
  if t.enabled then { t with data := t.data ++ [(key, value)] } else t

/-- The Python exceptions the follower model can surface. -/
inductive PyError
  | attributeError
deriving DecidableEq

/-- The Path_follower object state: construction parameters, the
precomputed geometry, and the mutable per-call fields.  target_set
models hasattr(self, 'target'). -/
structure Path_follower where
  keypoints : List Vec2
  max_velocity : ℝ
  max_acceleration : ℝ
  min_velocity : ℝ
  aggregation_weight : ℝ
  future_weight : ℝ
  off_path_weight : ℝ
  next_target_tol : ℝ
  end_vector_weight : ℝ
  soft_corner_weight : ℝ
  sharp_corner_weight : ℝ
  telemetry : Option Telemetry
  connecting_vectors : List Vec2
  dist_vectors : List ℝ
  previous_target : Vec2
  current_pos : Vec2
  previous_vel : Vec2
  target : Vec2
  target_number : Nat
  i : Nat
  target_set : Bool

/-- add_end_vector (lines 46-58): append a synthetic waypoint past the
last one, at distance end_vector_weight along the reversed final
segment. -/
def add_end_vector (keypoints : List Vec2) (end_vector_weight : ℝ) : List Vec2 :=
  let second_last_row := keypoints.getD (keypoints.length - 2) (0, 0)
  let last_row := keypoints.getD (keypoints.length - 1) (0, 0)
  let end_vector := vsub second_last_row last_row
  let end_normalized := vdiv end_vector (norm2 end_vector)
  let weighted_end := vadd (smul end_vector_weight end_normalized) last_row
  keypoints ++ [weighted_end]

/-- draw_keypoint_vectors (lines 62-72): the n-1 segment vectors. -/
def connecting_vectors_of (keypoints : List Vec2) : List Vec2 :=
  List.zipWith vsub keypoints.tail keypoints

/-- Path_follower.__init__ (lines 11-44), including the geometry
preprocessing. -/
def path_follower_init (path_keypoints : List Vec2) (max_velocity : ℝ)
    (max_acceleration : ℝ) (min_velocity : ℝ) (aggregation_weight : ℝ)
    (future_weight : ℝ) (off_path_weight : ℝ) (next_target_tol : ℝ)
    (end_vector_weight : ℝ) (soft_corner_weight : ℝ) (sharp_corner_weight : ℝ)
    (telemetry : Option Telemetry) : Path_follower :=
  let keypoints := add_end_vector path_keypoints end_vector_weight
  { keypoints := keypoints,
    max_velocity := max_velocity, max_acceleration := max_acceleration,
    min_velocity := min_velocity, aggregation_weight := aggregation_weight,
    future_weight := future_weight, off_path_weight := off_path_weight,
    next_target_tol := next_target_tol, end_vector_weight := end_vector_weight,
    soft_corner_weight := soft_corner_weight, sharp_corner_weight := sharp_corner_weight,
    telemetry := telemetry,
    connecting_vectors := connecting_vectors_of keypoints,
    dist_vectors := (connecting_vectors_of keypoints).map norm2,
    previous_target := (0, 0), current_pos := (0, 0), previous_vel := (0, 0),
    target := (0, 0), target_number := 0, i := 0, target_set := false }

/-- The geometric part of off_path_vector (lines 163-181): the foot of
the perpendicular from the current position onto the line through the
previous and current targets, minus the current position. -/
def off_path_normal (s : Path_follower) : Vec2 :=
  let p1 := s.previous_target
  let p2 := s.target
  let p3 := s.current_pos
  let d := vsub p2 p1
  let w := vsub p3 p1
  let t := vdot w d / vdot d d
  let h := vadd p1 (smul t d)
  vsub h p3

/-- off_path_vector (lines 160-190): computes the normal, then calls
self.telemetry.append unconditionally - an AttributeError when telemetry
is None - then weighs the normal and adds the projected vector. -/
def off_path_vector (s : Path_follower) (projected_vector : Vec2) :
    Except PyError ((Vec2 × Vec2) × Path_follower) :=
  let normal_vector := off_path_normal s
  match s.telemetry with
  | none => Except.error PyError.attributeError
  | some tel =>
    let tel := tel.append "normal_vector_length" (TelemetryValue.scalar (norm2 normal_vector))
    let v := smul s.off_path_weight normal_vector
    let total_velocity_vector := vadd v projected_vector
    Except.ok ((total_velocity_vector, v), { s with telemetry := some tel })

/-- Exact bisection with a fixed iteration budget, standing in for
scipy.optimize.bisect(f, a, b). -/
def bisect_step (f : ℝ → ℝ) : Nat → ℝ → ℝ → ℝ
  | 0, a, b => (a + b) / 2
  | n + 1, a, b =>
    let m := (a + b) / 2
    if f a * f m ≤ 0 then bisect_step f n a m else bisect_step f n m b

/-- non_linearize_angle (lines 276-281). -/
def non_linearize_angle (s : Path_follower) (normalized_angle : ℝ) : ℝ :=
  let a := 1 - s.soft_corner_weight
  let b := 1 - s.sharp_corner_weight
  let f := fun t : ℝ =>
    3 * (a - b + 1/3) * t^3 + 3 * (b - 2*a) * t^2 + 3 * a * t - normalized_angle
  let t := bisect_step f 50 0 1
  3 * t^2 - 2 * t^3

/-- One summand of the future-corner aggregation of
angle_dependant_velocity (lines 293-305): the non-linearized corner
angle entering waypoint i+1, damped by the path distance to it. -/
def angle_term (s : Path_follower) (p_k : Vec2) (p_k_dist : ℝ) (k i : Nat) : ℝ :=
  let pk := if i = k then p_k else s.connecting_vectors.getD (i - 1) (0, 0)
  let pk1 := s.connecting_vectors.getD i (0, 0)
  let vector_angle_cos :=
    min (max (vdot pk pk1 / (norm2 pk * norm2 pk1)) (-0.9999999)) 0.999999
  let p_i := non_linearize_angle s (Real.arccos vector_angle_cos / Real.pi)
  let exponent_sum := p_k_dist +
    ((List.range' (k + 1) (i - k)).map (fun j => s.dist_vectors.getD (j - 1) 0)).sum
  p_i * Real.exp (-(1 / s.future_weight) * exponent_sum)

/-- The aggregation scalar of angle_dependant_velocity (lines 283-309):
the damped corner sum, scaled, capped at 1 and inverted. -/
def aggregation_factor (s : Path_follower) : ℝ :=
  let k := s.target_number
  let p_k := vsub s.target s.current_pos
  let p_k_dist := norm2 p_k
  let n := s.keypoints.length
  let future_points_sum :=
    ((List.range' k (n - 1 - k)).map (fun i => angle_term s p_k p_k_dist k i)).sum
  1 - min (s.aggregation_weight * future_points_sum) 1

/-- The vector angle_dependant_velocity returns (line 313). -/
def a_vec_of (s : Path_follower) : Vec2 :=
  let p_k := vsub s.target s.current_pos
  smul (aggregation_factor s * s.max_velocity) (vdiv p_k (norm2 p_k))

/-- angle_dependant_velocity (lines 283-313): the aggregation is
computed, appended to telemetry unconditionally (AttributeError when
telemetry is None, before the return vector is built), and the scaled
direction to the current target returned. -/
def angle_dependant_velocity (s : Path_follower) :
    Except PyError (Vec2 × Path_follower) :=
  match s.telemetry with
  | none => Except.error PyError.attributeError
  | some tel =>
    let tel := tel.append "aggregation_factor" (TelemetryValue.scalar (aggregation_factor s))
    Except.ok (a_vec_of s, { s with telemetry := some tel })

/-- clip_vector_angle (lines 315-330). -/
def clip_vector_angle (s : Path_follower) (a_vec off_path : Vec2) : Vec2 :=
  let p_k := vsub s.target s.current_pos
  let p_k_normalized := vdiv p_k (norm2 p_k)
  let v_final := vadd off_path a_vec
  let v_final_normalized := vdiv v_final (norm2 v_final)
  if linf v_final > s.max_velocity then smul s.max_velocity v_final_normalized
  else if norm2 a_vec < s.min_velocity then smul s.min_velocity p_k_normalized
  else v_final

/-- get_demand_accelerations (lines 272-274). -/
def get_demand_accelerations (s : Path_follower) (demand_velocity current_velocity : Vec2) :
    Vec2 :=
  let difference_in_velocities := vsub current_velocity demand_velocity
  smul s.max_acceleration (vdiv difference_in_velocities (norm2 difference_in_velocities))

/-- The telemetry block of __call__ (lines 357-372), reached only when
self.telemetry is not None. -/
def telemetry_block (tel : Telemetry) (s : Path_follower) (a_vec : Vec2) : Telemetry :=
  (((((((((((((tel.append "aggregating_vector" (TelemetryValue.vector a_vec)).append
    "target_pos" (TelemetryValue.vector s.target)).append
    "previous_target_pos" (TelemetryValue.vector s.previous_target)).append
    "future_weight" (TelemetryValue.scalar s.future_weight)).append
    "aggregation_weight" (TelemetryValue.scalar s.aggregation_weight)).append
    "off_path_weight" (TelemetryValue.scalar s.off_path_weight)).append
    "next_target_tolerance" (TelemetryValue.scalar s.next_target_tol)).append
    "max_velocity" (TelemetryValue.scalar s.max_velocity)).append
    "max_acceleration" (TelemetryValue.scalar s.max_acceleration)).append
    "min_velocity" (TelemetryValue.scalar s.min_velocity)).append
    "end_vector_weight" (TelemetryValue.scalar s.end_vector_weight)).append
    "soft_corner_weight" (TelemetryValue.scalar s.soft_corner_weight)).append
    "sharp_corner_weight" (TelemetryValue.scalar s.sharp_corner_weight))

/-- The target-advance loop of __call__ (lines 374-398).  The fuel only
bounds the recursion: every iteration increments i and the loop exits
once i + 1 reaches the keypoint count, so keypoints.length + 1 steps
always suffice. -/
def advance_loop : Nat → Path_follower → Bool × Path_follower
  | 0, s => (false, s)
  | fuel + 1, s =>
    let p1 := s.previous_target
    let p2 := s.target
    let p3 := s.current_pos
    let previous_to_target := vsub p2 p1
    let previous_to_current_vector := vsub p3 p1
    let relative_dis_to_target :=
      vdot previous_to_current_vector previous_to_target /
        vdot previous_to_target previous_to_target
    if relative_dis_to_target ≥ 1 ∨ norm2 (vsub p2 p3) ≤ s.next_target_tol then
      let s := { s with i := s.i + 1 }
      if s.i + 1 ≥ s.keypoints.length then (true, s)
      else
        advance_loop fuel
          { s with
            target := s.keypoints.getD s.i (0, 0),
            previous_target := s.keypoints.getD (s.i - 1) (0, 0),
            target_number := s.i }
    else (false, s)

/-- Path_follower.__call__ (lines 332-400): first-call target
initialization, the off-path and aggregation stages (each of which
raises AttributeError before producing output when telemetry is None),
clipping, acceleration demand, the guarded telemetry block, and the
target-advance loop. -/
def step (s0 : Path_follower) (current_position current_velocity : Vec2) :
    Except PyError ((Vec2 × Vec2 × Bool) × Path_follower) :=
  let s := if s0.target_set = false then
      { s0 with
        i := 0,
        target_number := 0,
        previous_target := current_position,
        target := s0.keypoints.getD 0 (0, 0),
        target_set := true }
    else s0
  let s := { s with current_pos := current_position }
  match off_path_vector s (1, 1) with
  | Except.error e => Except.error e
  | Except.ok (pr, s) =>
    match angle_dependant_velocity s with
    | Except.error e => Except.error e
    | Except.ok (a_vec, s) =>
      let off_path := pr.2
      let final_v := clip_vector_angle s a_vec off_path
      let demand_acceleration := get_demand_accelerations s final_v current_velocity
      let s := { s with previous_vel := final_v }
      let s := match s.telemetry with
        | none => s
        | some tel => { s with telemetry := some (telemetry_block tel s a_vec) }
      let r := advance_loop (s.keypoints.length + 1) s
      Except.ok ((final_v, demand_acceleration, r.1), r.2)

/-! ## Norm lemmas for the clipping stage -/

theorem norm2_nonneg (a : Vec2) : 0 ≤ norm2 a := Real.sqrt_nonneg _

theorem linf_nonneg (a : Vec2) : 0 ≤ linf a :=
  le_trans (abs_nonneg a.1) (le_max_left _ _)

theorem abs_fst_le_norm2 (a : Vec2) : |a.1| ≤ norm2 a := by
  rw [norm2, vdot, show |a.1| = Real.sqrt (a.1 ^ 2) from (Real.sqrt_sq_eq_abs a.1).symm]
  apply Real.sqrt_le_sqrt
  nlinarith [mul_self_nonneg a.2]

theorem abs_snd_le_norm2 (a : Vec2) : |a.2| ≤ norm2 a := by
  rw [norm2, vdot, show |a.2| = Real.sqrt (a.2 ^ 2) from (Real.sqrt_sq_eq_abs a.2).symm]
  apply Real.sqrt_le_sqrt
  nlinarith [mul_self_nonneg a.1]

theorem scale_div_le (c n x : ℝ) (hc : 0 ≤ c) (hx : |x| ≤ n) : |c * (x / n)| ≤ c := by
  rcases eq_or_lt_of_le (le_trans (abs_nonneg x) hx) with h0 | hpos
  · have hx0 : x = 0 := abs_eq_zero.mp (le_antisymm (h0 ▸ hx) (abs_nonneg x))
    simp [hx0, hc]
  · have habs : |c * (x / n)| = c * (|x| / n) := by
      rw [abs_mul, abs_of_nonneg hc, abs_div, abs_of_pos hpos]
    rw [habs]
    calc c * (|x| / n) ≤ c * 1 :=
          mul_le_mul_of_nonneg_left ((div_le_one hpos).mpr hx) hc
      _ = c := mul_one c

theorem linf_smul_vdiv_le (c : ℝ) (x : Vec2) (hc : 0 ≤ c) :
    linf (smul c (vdiv x (norm2 x))) ≤ c := by
  simp only [linf, smul, vdiv]
  exact max_le (scale_div_le c (norm2 x) x.1 hc (abs_fst_le_norm2 x))
    (scale_div_le c (norm2 x) x.2 hc (abs_snd_le_norm2 x))

/-- The clipping stage respects the speed cap whenever min_velocity does
not exceed a non-negative max_velocity, whatever vectors the aggregation
and off-path stages fed into it. -/
theorem clip_vector_angle_linf (s : Path_follower) (a_vec off_path : Vec2)
    (hmin : s.min_velocity ≤ s.max_velocity) (hmax : 0 ≤ s.max_velocity) :
    linf (clip_vector_angle s a_vec off_path) ≤ s.max_velocity := by
  unfold clip_vector_angle
  by_cases h1 : linf (vadd off_path a_vec) > s.max_velocity
  · simp only [h1, if_true]
    exact linf_smul_vdiv_le _ _ hmax
  · simp only [h1, if_false]
    by_cases h2 : norm2 a_vec < s.min_velocity
    · simp only [h2, if_true]
      have hm : 0 ≤ s.min_velocity := le_trans (norm2_nonneg a_vec) h2.le
      exact le_trans (linf_smul_vdiv_le _ _ hm) hmin
    · simp only [h2, if_false]
      exact not_lt.mp h1

/-- A call with no telemetry sink fails at the unconditional append
inside off_path_vector. -/
theorem step_error_of_none (s : Path_follower) (htel : s.telemetry = none)
    (pos vel : Vec2) : step s pos vel = Except.error PyError.attributeError := by
  by_cases hts : s.target_set = false <;>
    simp [step, off_path_vector, hts, htel]

/-- A call with a telemetry sink completes, and the velocity it returns
is the output of clip_vector_angle at a state sharing the min and max
velocity parameters of the caller. -/
theorem step_ok_shape (s : Path_follower) (tel : Telemetry)
    (htel : s.telemetry = some tel) (pos vel : Vec2) :
    ∃ (s2 : Path_follower) (a off acc : Vec2) (done : Bool) (rest : Path_follower),
      step s pos vel = Except.ok ((clip_vector_angle s2 a off, acc, done), rest)
      ∧ s2.max_velocity = s.max_velocity ∧ s2.min_velocity = s.min_velocity := by
  by_cases hts : s.target_set = false
  · simp [step, off_path_vector, angle_dependant_velocity, hts, htel]
    exact ⟨_, ⟨_, _, _, _, rfl⟩, rfl, rfl⟩
  · simp [step, off_path_vector, angle_dependant_velocity, hts, htel]
    exact ⟨_, ⟨_, _, _, _, rfl⟩, rfl, rfl⟩

/-! ## C9: follower speed cap -/

/-- A follower instance whose construction parameters satisfy the
precondition of the claim as stated (min_velocity = max_velocity = -1)
but violate the speed cap, with a telemetry sink attached so the call
completes. -/
def c9_bad_follower : Path_follower :=
  path_follower_init [((0 : ℝ), 0), (1, 0)] (-1) 10 (-1) 1 (1/2) 1 (1/1000) 1
    (1/5) (1/5) (some {})

/-- C9 counterexample: the instance above satisfies min_velocity less
than or equal to max_velocity, yet the call returns a velocity whose
supremum norm exceeds max_velocity - the norm is non-negative while
max_velocity is -1, so the claimed bound fails whatever the clipping
branch produced. -/
theorem C9_counterexample :
    c9_bad_follower.min_velocity ≤ c9_bad_follower.max_velocity
    ∧ (match step c9_bad_follower ((1 : ℝ)/2, 1/4) (0, 0) with
       | Except.ok out => ¬ linf out.1.1 ≤ c9_bad_follower.max_velocity
       | Except.error _ => False) := by
  constructor
  · simp only [c9_bad_follower, path_follower_init]
    norm_num
  · obtain ⟨s2, a, off, acc, done, rest, heq, h1, h2⟩ :=
      step_ok_shape c9_bad_follower {} rfl ((1 : ℝ)/2, 1/4) (0, 0)
    rw [heq]
    intro hle
    have h0 : 0 ≤ linf (clip_vector_angle s2 a off) := linf_nonneg _
    have hneg : c9_bad_follower.max_velocity = -1 := by
      simp [c9_bad_follower, path_follower_init]
    rw [hneg] at hle
    linarith

/-- C9 (amended): on an instance whose construction parameters satisfy
min_velocity less than or equal to max_velocity AND max_velocity
non-negative, every call of the step function that returns yields a
commanded velocity of supremum norm at most max_velocity (exact real
arithmetic, with division by a zero norm yielding the zero vector); a
call that raises instead returns no velocity at all. -/
theorem C9_speed_cap (s : Path_follower) (pos vel : Vec2)
    (hmin : s.min_velocity ≤ s.max_velocity) (hmax : 0 ≤ s.max_velocity) :
    match step s pos vel with
    | Except.ok out => linf out.1.1 ≤ s.max_velocity
    | Except.error _ => True := by
  cases htel : s.telemetry with
  | none =>
    rw [step_error_of_none s htel pos vel]
    trivial
  | some tel =>
    obtain ⟨s2, a, off, acc, done, rest, heq, h1, h2⟩ := step_ok_shape s tel htel pos vel
    rw [heq]
    have hcap := clip_vector_angle_linf s2 a off (by rw [h1, h2]; exact hmin)
      (by rw [h1]; exact hmax)
    rw [h1] at hcap
    exact hcap

/-- A follower instance with non-negative speed bounds and a telemetry
sink, used by the C9 witness. -/
def c9_ok_follower : Path_follower :=
  path_follower_init [((0 : ℝ), 0), (1, 0)] 1 10 (1/1000) 1 (1/2) 1 (1/1000) 1
    (1/5) (1/5) (some {})

/-- C9 witness: the amended statement applied at a concrete instance and
call. -/
theorem C9_witness :
    match step c9_ok_follower ((1 : ℝ)/2, 1/4) (0, 0) with
    | Except.ok out => linf out.1.1 ≤ c9_ok_follower.max_velocity
    | Except.error _ => True :=
  C9_speed_cap c9_ok_follower ((1 : ℝ)/2, 1/4) (0, 0)
    (by simp only [c9_ok_follower, path_follower_init]; norm_num)
    (by simp only [c9_ok_follower, path_follower_init]; norm_num)

/-! ## C10: calls with the default telemetry sink -/

/-- C10: for every Path_follower instance constructed with the default
telemetry = None, every call of the step function raises AttributeError
at the unconditional telemetry.append inside off_path_vector, before any
(velocity, acceleration, done) output is produced; the stepper can never
complete a cycle without a telemetry sink attached. -/
theorem C10_no_telemetry_raises (path_keypoints : List Vec2)
    (max_velocity max_acceleration min_velocity aggregation_weight future_weight
     off_path_weight next_target_tol end_vector_weight soft_corner_weight
     sharp_corner_weight : ℝ) (pos vel : Vec2) :
    step (path_follower_init path_keypoints max_velocity max_acceleration
        min_velocity aggregation_weight future_weight off_path_weight
        next_target_tol end_vector_weight soft_corner_weight sharp_corner_weight
        none) pos vel
      = Except.error PyError.attributeError :=
  step_error_of_none _ rfl pos vel

end

end Manipulator
